import Mathlib

/-!
Shallow embedding of `drivers/watchdog/aspeed_wdt.c` (ASPEED watchdog
timer driver).

The register block is modelled as a record of five 32-bit registers
(values are `Nat`, kept below `2^32` by masking on every write, as the
hardware does).  Every MMIO write is also recorded as an `Event` so that
the exact write sequences of the driver's operations can be stated.  The
driver state `Wdt` carries the register file, the cached control value
`wdt->ctrl`, and the fields of `struct watchdog_device` the driver uses
(`timeout`, `max_hw_heartbeat_ms`, and the `WDOG_HW_RUNNING` status
bit).
-/

namespace Aspeed

/-- `2^32`, the modulus of unsigned 32-bit arithmetic. -/
def U32MOD : Nat := 4294967296

/-- Reduction of a `Nat` to its unsigned 32-bit value. -/
def u32 (n : Nat) : Nat := n % U32MOD

/- Register offsets and bit constants, from the `#define` block of
   aspeed_wdt.c (lines 33–59). -/

def WDT_STATUS : Nat := 0x00
def WDT_RELOAD_VALUE : Nat := 0x04
def WDT_RESTART : Nat := 0x08
def WDT_CTRL : Nat := 0x0C
def WDT_CTRL_RESET_MODE_SOC : Nat := 0x00 <<< 5
def WDT_CTRL_RESET_MODE_FULL_CHIP : Nat := 0x01 <<< 5
def WDT_CTRL_RESET_MODE_ARM_CPU : Nat := 0x10 <<< 5
def WDT_CTRL_1MHZ_CLK : Nat := 1 <<< 4
def WDT_CTRL_WDT_EXT : Nat := 1 <<< 3
def WDT_CTRL_WDT_INTR : Nat := 1 <<< 2
def WDT_CTRL_RESET_SYSTEM : Nat := 1 <<< 1
def WDT_CTRL_ENABLE : Nat := 1 <<< 0
def WDT_RESET_WIDTH : Nat := 0x18
def WDT_RESET_WIDTH_ACTIVE_HIGH : Nat := 1 <<< 31
def WDT_ACTIVE_HIGH_MAGIC : Nat := 0xA5 <<< 24
def WDT_ACTIVE_LOW_MAGIC : Nat := 0x5A <<< 24
def WDT_RESET_WIDTH_PUSH_PULL : Nat := 1 <<< 30
def WDT_PUSH_PULL_MAGIC : Nat := 0xA8 <<< 24
def WDT_OPEN_DRAIN_MAGIC : Nat := 0x8A <<< 24
def WDT_RESET_WIDTH_DURATION : Nat := 0xFFF

def WDT_RESTART_MAGIC : Nat := 0x4755

/-- 32 bits at 1MHz, in milliseconds (comment of line 56). -/
def WDT_MAX_TIMEOUT_MS : Nat := 4294967
def WDT_DEFAULT_TIMEOUT : Nat := 30
def WDT_RATE_1MHZ : Nat := 1000000

/-- The five 32-bit registers of the watchdog register block.  Field
`reset_width` exists only on the ast2500 variant; modelling it
unconditionally is harmless because only the probe code guarded by the
compatible string (and the unguarded pulse-duration write) touches it. -/
structure Regs where
  status : Nat
  reload_value : Nat
  restart : Nat
  ctrl : Nat
  reset_width : Nat
deriving Repr, DecidableEq

/-- Observable actions of the driver: an MMIO register write (offset and
32-bit value) or a busy delay in milliseconds (`mdelay`). -/
inductive Event where
  | write (off val : Nat)
  | delay (ms : Nat)
deriving Repr, DecidableEq

/-- `writel(val, base + off)`: stores the 32-bit truncation of `val` in
the register at `off` and reports the write event.  Argument order
matches the C call: value first, then offset. -/
def writel (val off : Nat) (r : Regs) : Regs × Event :=
  let v := u32 val
  (if off = WDT_STATUS then { r with status := v }
   else if off = WDT_RELOAD_VALUE then { r with reload_value := v }
   else if off = WDT_RESTART then { r with restart := v }
   else if off = WDT_CTRL then { r with ctrl := v }
   else if off = WDT_RESET_WIDTH then { r with reset_width := v }
   else r,
   Event.write off v)

/-- `readl(base + off)`. -/
def readl (off : Nat) (r : Regs) : Nat :=
  if off = WDT_STATUS then r.status
  else if off = WDT_RELOAD_VALUE then r.reload_value
  else if off = WDT_RESTART then r.restart
  else if off = WDT_CTRL then r.ctrl
  else if off = WDT_RESET_WIDTH then r.reset_width
  else 0

/-- Driver state: `struct aspeed_wdt` (register block and cached `ctrl`)
together with the fields of the embedded `struct watchdog_device` that
the driver reads or writes: `wdd.timeout` (seconds),
`wdd.max_hw_heartbeat_ms`, and the `WDOG_HW_RUNNING` bit of
`wdd.status`. -/
structure Wdt where
  regs : Regs
  ctrl : Nat
  timeout : Nat
  max_hw_heartbeat_ms : Nat
  hw_running : Bool
deriving Repr, DecidableEq

/-- `aspeed_wdt_enable(wdt, count)` (lines 66–74): set the enable bit in
the cached `ctrl`, then write 0 to the control register, `count` to the
reload register, the restart magic, and finally the cached `ctrl`. -/
def aspeed_wdt_enable (s : Wdt) (count : Nat) : Wdt × List Event :=
  let s1 := { s with ctrl := u32 (s.ctrl ||| WDT_CTRL_ENABLE) }
  let p1 := writel 0 WDT_CTRL s1.regs
  let p2 := writel count WDT_RELOAD_VALUE p1.1
  let p3 := writel WDT_RESTART_MAGIC WDT_RESTART p2.1
  let p4 := writel s1.ctrl WDT_CTRL p3.1
  ({ s1 with regs := p4.1 }, [p1.2, p2.2, p3.2, p4.2])

/-- `aspeed_wdt_start(wdd)` (lines 76–83): enable with
`wdd->timeout * WDT_RATE_1MHZ` (unsigned 32-bit product), return 0. -/
def aspeed_wdt_start (s : Wdt) : Int × Wdt × List Event :=
  let p := aspeed_wdt_enable s (u32 (s.timeout * WDT_RATE_1MHZ))
  (0, p.1, p.2)

/-- `aspeed_wdt_stop(wdd)` (lines 85–93): clear the enable bit in the
cached `ctrl` (`&= ~WDT_CTRL_ENABLE`, i.e. `&&& 0xFFFFFFFE` on u32) and
write it to the control register. -/
def aspeed_wdt_stop (s : Wdt) : Int × Wdt × List Event :=
  let s1 := { s with ctrl := s.ctrl &&& 0xFFFFFFFE }
  let p := writel s1.ctrl WDT_CTRL s1.regs
  (0, { s1 with regs := p.1 }, [p.2])

/-- `aspeed_wdt_ping(wdd)` (lines 95–102): write the restart magic. -/
def aspeed_wdt_ping (s : Wdt) : Int × Wdt × List Event :=
  let p := writel WDT_RESTART_MAGIC WDT_RESTART s.regs
  (0, { s with regs := p.1 }, [p.2])

/-- `aspeed_wdt_set_timeout(wdd, timeout)` (lines 104–118): store the
argument in `wdd->timeout`, compute
`actual = min(timeout, wdd->max_hw_heartbeat_ms * 1000)` (all unsigned
32-bit), write `actual * WDT_RATE_1MHZ` to the reload register followed
by the restart magic. -/
def aspeed_wdt_set_timeout (s : Wdt) (timeout : Nat) : Int × Wdt × List Event :=
  let t := u32 timeout
  let s1 := { s with timeout := t }
  let actual := min t (u32 (s1.max_hw_heartbeat_ms * 1000))
  let p1 := writel (actual * WDT_RATE_1MHZ) WDT_RELOAD_VALUE s1.regs
  let p2 := writel WDT_RESTART_MAGIC WDT_RESTART p1.1
  (0, { s1 with regs := p2.1 }, [p1.2, p2.2])

/-- `aspeed_wdt_restart(wdd, action, data)` (lines 120–130): enable with
`128 * WDT_RATE_1MHZ / 1000` ignoring both arguments, then `mdelay(1000)`
and return 0. -/
def aspeed_wdt_restart (s : Wdt) (action : Nat) (data : Nat) : Int × Wdt × List Event :=
  let p := aspeed_wdt_enable s (128 * WDT_RATE_1MHZ / 1000)
  (0, p.1, p.2 ++ [Event.delay 1000])

/-- Device-tree inputs consumed by `aspeed_wdt_probe`: the
`aspeed,reset-type` string property (absent or a string), the boolean
properties `aspeed,external-signal`, `aspeed,ext-push-pull`,
`aspeed,ext-active-high`, the optional u32 property
`aspeed,ext-pulse-duration`, and whether the node is compatible with
`aspeed,ast2500-wdt`. -/
structure DtNode where
  reset_type : Option String
  external_signal : Bool
  ext_push_pull : Bool
  ext_active_high : Bool
  ext_pulse_duration : Option Nat
  compatible_ast2500 : Bool
deriving Repr, DecidableEq

/-- The reset-type decoding of `aspeed_wdt_probe`, lines 194–205: an
absent property sets `WDT_CTRL_RESET_SYSTEM`; otherwise `"cpu"`, `"soc"`
and `"system"` OR in their respective bits and any other string leaves
`ctrl` unchanged. -/
def decode_reset_ctrl (reset_type : Option String) (ctrl : Nat) : Nat :=
  match reset_type with
  | none => ctrl ||| WDT_CTRL_RESET_SYSTEM
  | some rt =>
    if rt = "cpu" then ctrl ||| WDT_CTRL_RESET_MODE_ARM_CPU
    else if rt = "soc" then ctrl ||| WDT_CTRL_RESET_MODE_SOC
    else if rt = "system" then ctrl ||| WDT_CTRL_RESET_SYSTEM
    else ctrl

/-- The cached control value computed by `aspeed_wdt_probe` before the
adoption check (lines 188–207): start from `WDT_CTRL_1MHZ_CLK`, decode
the reset type, and OR in `WDT_CTRL_WDT_EXT` when
`aspeed,external-signal` is present. -/
def probe_ctrl (dt : DtNode) : Nat :=
  let c := decode_reset_ctrl dt.reset_type WDT_CTRL_1MHZ_CLK
  if dt.external_signal then c ||| WDT_CTRL_WDT_EXT else c

/-- `-EINVAL`. -/
def EINVAL_ERR : Int := -22

/-- `aspeed_wdt_probe(pdev)` (lines 157–262), modelled from the point
where the register block has been mapped: the argument `hw` is the live
register file.  Initializes the `watchdog_device` fields
(`max_hw_heartbeat_ms`, default timeout 30; `watchdog_init_timeout` is
called with a zero parameter so the default is kept), computes the
cached `ctrl` from the device tree, adopts an already-running watchdog
by re-running `aspeed_wdt_start` and setting `WDOG_HW_RUNNING`, performs
the ast2500 reset-width configuration, and validates and writes an
explicit pulse duration (failing with `-EINVAL` when it exceeds the
12-bit field). -/
def aspeed_wdt_probe (dt : DtNode) (hw : Regs) : Except Int (Wdt × List Event) :=
  let s : Wdt :=
    { regs := hw
      ctrl := WDT_CTRL_1MHZ_CLK
      timeout := WDT_DEFAULT_TIMEOUT
      max_hw_heartbeat_ms := WDT_MAX_TIMEOUT_MS
      hw_running := false }
  let s := { s with ctrl := probe_ctrl dt }
  let adopted :=
    if readl WDT_CTRL s.regs &&& WDT_CTRL_ENABLE ≠ 0 then
      let p := aspeed_wdt_start s
      ({ p.2.1 with hw_running := true }, p.2.2)
    else (s, ([] : List Event))
  let s := adopted.1
  let tr1 := adopted.2
  let shaped :=
    if dt.compatible_ast2500 then
      let reg := readl WDT_RESET_WIDTH s.regs
      let reg := reg &&& WDT_RESET_WIDTH_DURATION
      let reg := if dt.ext_push_pull then reg ||| WDT_PUSH_PULL_MAGIC
                 else reg ||| WDT_OPEN_DRAIN_MAGIC
      let p1 := writel reg WDT_RESET_WIDTH s.regs
      let reg := reg &&& WDT_RESET_WIDTH_DURATION
      let reg := if dt.ext_active_high then reg ||| WDT_ACTIVE_HIGH_MAGIC
                 else reg ||| WDT_ACTIVE_LOW_MAGIC
      let p2 := writel reg WDT_RESET_WIDTH p1.1
      ({ s with regs := p2.1 }, [p1.2, p2.2])
    else (s, ([] : List Event))
  let s := shaped.1
  let tr2 := shaped.2
  match dt.ext_pulse_duration with
  | some duration =>
    let duration := u32 duration
    if duration > WDT_RESET_WIDTH_DURATION then
      Except.error EINVAL_ERR
    else
      let p := writel duration WDT_RESET_WIDTH s.regs
      Except.ok ({ s with regs := p.1 }, tr1 ++ tr2 ++ [p.2])
  | none => Except.ok (s, tr1 ++ tr2)

/-- The sub-list of values written to the register at offset `off` in an
event trace, in order. -/
def writesTo (tr : List Event) (off : Nat) : List Nat :=
  tr.filterMap fun e =>
    match e with
    | Event.write o v => if o = off then some v else none
    | Event.delay _ => none

/-- The reset-width register value of a probe result, when probing
succeeded. -/
def probe_reset_width (r : Except Int (Wdt × List Event)) : Option Nat :=
  match r with
  | Except.ok p => some p.1.regs.reset_width
  | Except.error _ => none

/-! ### Concrete inputs and states used by witness and counterexample
theorems -/

/-- A concrete driver state used by the witness theorems: register file
all zero, `ctrl` cached as `WDT_CTRL_1MHZ_CLK ||| WDT_CTRL_RESET_SYSTEM`
(= 18), default timeout 30 s, the probe-set heartbeat bound. -/
def wit_state : Wdt :=
  { regs := { status := 0, reload_value := 0, restart := 0, ctrl := 0, reset_width := 0 }
    ctrl := 18
    timeout := 30
    max_hw_heartbeat_ms := WDT_MAX_TIMEOUT_MS
    hw_running := false }

/-- A device-tree node with no optional property set. -/
def dt_plain : DtNode :=
  { reset_type := none, external_signal := false, ext_push_pull := false,
    ext_active_high := false, ext_pulse_duration := none,
    compatible_ast2500 := false }

/-- A live register file whose control register has the enable bit set
(watchdog armed by firmware before probing). -/
def hw_en : Regs :=
  { status := 0, reload_value := 0, restart := 0, ctrl := 1, reset_width := 0 }

/-- An all-zero register file. -/
def hw_zero : Regs :=
  { status := 0, reload_value := 0, restart := 0, ctrl := 0, reset_width := 0 }

/-- The state produced by `aspeed_wdt_probe dt_plain hw_en`. -/
def s_adopt : Wdt :=
  { regs := { status := 0, reload_value := 30000000, restart := 18261,
              ctrl := 19, reset_width := 0 }
    ctrl := 19
    timeout := 30
    max_hw_heartbeat_ms := 4294967
    hw_running := true }

/-- The trace produced by `aspeed_wdt_probe dt_plain hw_en`. -/
def tr_adopt : List Event :=
  [Event.write 12 0, Event.write 4 30000000, Event.write 8 18261,
   Event.write 12 19]

/-- An ast2500 node requesting push-pull drive, active-low polarity, and
no explicit pulse duration. -/
def dt25 : DtNode :=
  { reset_type := none, external_signal := false, ext_push_pull := true,
    ext_active_high := false, ext_pulse_duration := none,
    compatible_ast2500 := true }

/-- A register file with a pre-set pulse duration field (0xFAB) and
unrelated high bits in the reset-width register. -/
def hw_rw : Regs :=
  { status := 0, reload_value := 0, restart := 0, ctrl := 0,
    reset_width := 0x80000FAB }

/-- The state produced by `aspeed_wdt_probe dt25 hw_rw`. -/
def s_pulse : Wdt :=
  { regs := { status := 0, reload_value := 0, restart := 0, ctrl := 0,
              reset_width := 1509953451 }
    ctrl := 18
    timeout := 30
    max_hw_heartbeat_ms := 4294967
    hw_running := false }

/-- The trace produced by `aspeed_wdt_probe dt25 hw_rw`. -/
def tr_pulse : List Event :=
  [Event.write 24 2818576299, Event.write 24 1509953451]

/-- A non-ast2500 node that nevertheless supplies an out-of-range pulse
duration. -/
def dt_dur_bad : DtNode :=
  { reset_type := none, external_signal := false, ext_push_pull := false,
    ext_active_high := false, ext_pulse_duration := some 4096,
    compatible_ast2500 := false }

/-- A non-ast2500 node that supplies an in-range pulse duration. -/
def dt_dur7 : DtNode :=
  { reset_type := none, external_signal := false, ext_push_pull := false,
    ext_active_high := false, ext_pulse_duration := some 7,
    compatible_ast2500 := false }

/-! ### Helper lemmas -/

lemma U32MOD_eq : U32MOD = 2 ^ 32 := by norm_num [U32MOD]

lemma u32_u32 (n : Nat) : u32 (u32 n) = u32 n := by
  simp [u32, U32MOD]

lemma u32_of_lt {n : Nat} (h : n < U32MOD) : u32 n = n := Nat.mod_eq_of_lt h

lemma u32_testBit (n i : Nat) (h : i < 32) :
    (u32 n).testBit i = n.testBit i := by
  unfold u32
  rw [U32MOD_eq, Nat.testBit_mod_two_pow]
  simp [h]

/-- `(a &&& m) &&& m = a &&& m`. -/
lemma and_mask_idem (a m : Nat) : (a &&& m) &&& m = a &&& m := by
  apply Nat.eq_of_testBit_eq
  intro i
  simp [Nat.testBit_and, Bool.and_assoc]

/-- ORing in bits outside the mask does not change the masked value. -/
lemma or_high_and_mask (d M m : Nat) (hdm : d &&& m = d) (hM : M &&& m = 0) :
    (d ||| M) &&& m = d := by
  apply Nat.eq_of_testBit_eq
  intro i
  have h1 := congrArg (fun x => Nat.testBit x i) hdm
  have h2 := congrArg (fun x => Nat.testBit x i) hM
  simp only [Nat.testBit_and, Nat.zero_testBit] at h1 h2
  simp only [Nat.testBit_and, Nat.testBit_or]
  cases hm : Nat.testBit m i with
  | false => simp [hm] at h1 ⊢; exact h1
  | true => simp [hm] at h1 h2 ⊢; simp [h2]

/-- Closed form of `aspeed_wdt_enable`. -/
lemma aspeed_wdt_enable_eq (s : Wdt) (count : Nat) :
    aspeed_wdt_enable s count =
      ({ regs := { status := s.regs.status
                   reload_value := u32 count
                   restart := WDT_RESTART_MAGIC
                   ctrl := u32 (s.ctrl ||| WDT_CTRL_ENABLE)
                   reset_width := s.regs.reset_width }
         ctrl := u32 (s.ctrl ||| WDT_CTRL_ENABLE)
         timeout := s.timeout
         max_hw_heartbeat_ms := s.max_hw_heartbeat_ms
         hw_running := s.hw_running },
       [Event.write WDT_CTRL 0,
        Event.write WDT_RELOAD_VALUE (u32 count),
        Event.write WDT_RESTART WDT_RESTART_MAGIC,
        Event.write WDT_CTRL (u32 (s.ctrl ||| WDT_CTRL_ENABLE))]) := by
  have key : ∀ n : Nat, n % 4294967296 % 4294967296 = n % 4294967296 := by
    intro n; omega
  simp [aspeed_wdt_enable, writel, u32, U32MOD, WDT_STATUS, WDT_RELOAD_VALUE,
    WDT_RESTART, WDT_CTRL, WDT_RESET_WIDTH, WDT_RESTART_MAGIC, key]

/-- The enable bit of the value `u32 (c ||| WDT_CTRL_ENABLE)` is set. -/
lemma enable_bit_set (c : Nat) : (u32 (c ||| WDT_CTRL_ENABLE)).testBit 0 = true := by
  rw [u32_testBit _ _ (by norm_num)]
  simp [WDT_CTRL_ENABLE, Nat.testBit_or]

/-- `decode_reset_ctrl` only ORs bits into its argument. -/
lemma decode_reset_ctrl_or (rt : Option String) (c : Nat) :
    decode_reset_ctrl rt c = c ||| decode_reset_ctrl rt 0 := by
  unfold decode_reset_ctrl
  cases rt with
  | none => simp [WDT_CTRL_RESET_SYSTEM]
  | some r =>
    by_cases h1 : r = "cpu"
    · simp [h1, WDT_CTRL_RESET_MODE_ARM_CPU]
    · by_cases h2 : r = "soc"
      · simp [h1, h2, WDT_CTRL_RESET_MODE_SOC]
      · by_cases h3 : r = "system"
        · simp [h1, h2, h3, WDT_CTRL_RESET_SYSTEM]
        · simp [h1, h2, h3]

/-- The 1 MHz clock-source bit (bit 4) is set in the probe-computed
control value, whatever the device tree says. -/
lemma probe_ctrl_bit4 (dt : DtNode) : (probe_ctrl dt).testBit 4 = true := by
  unfold probe_ctrl
  rw [decode_reset_ctrl_or]
  have h16 : Nat.testBit 16 4 = true := by decide
  cases hext : dt.external_signal <;>
    simp [hext, Nat.testBit_or, WDT_CTRL_1MHZ_CLK, h16]

/-- Enable bit (0) and 1 MHz clock bit (4) of the control value written
back when the probe adopts a running watchdog. -/
lemma adopted_ctrl_bits (dt : DtNode) :
    (u32 (probe_ctrl dt ||| WDT_CTRL_ENABLE)).testBit 0 = true ∧
    (u32 (probe_ctrl dt ||| WDT_CTRL_ENABLE)).testBit 4 = true := by
  refine ⟨enable_bit_set _, ?_⟩
  rw [u32_testBit _ _ (by norm_num), Nat.testBit_or, probe_ctrl_bit4]
  simp

/-- Every successful probe leaves the default timeout and the fixed
heartbeat bound in the watchdog-device fields. -/
lemma probe_ok_timeout (dt : DtNode) (hw : Regs) (s0 : Wdt) (tr : List Event)
    (heq : aspeed_wdt_probe dt hw = Except.ok (s0, tr)) :
    s0.timeout = WDT_DEFAULT_TIMEOUT ∧ s0.max_hw_heartbeat_ms = WDT_MAX_TIMEOUT_MS := by
  unfold aspeed_wdt_probe at heq
  simp only [aspeed_wdt_start, aspeed_wdt_enable_eq] at heq
  repeat' split at heq
  all_goals
    first
      | exact (Except.noConfusion heq)
      | (simp only [Except.ok.injEq, Prod.mk.injEq] at heq
         obtain ⟨hs, -⟩ := heq
         subst hs
         simp)

/-- Values ORed from a masked duration and a tag constant stay below
`2^32`. -/
lemma width_or_lt (a M : Nat) (hM : M < 2 ^ 32) :
    (a &&& WDT_RESET_WIDTH_DURATION) ||| M < U32MOD := by
  rw [U32MOD_eq]
  exact Nat.or_lt_two_pow
    (Nat.and_lt_two_pow a (by norm_num [WDT_RESET_WIDTH_DURATION])) hM

/-- Masking a tagged value back to the duration field recovers the
original duration. -/
lemma masked_or_masked (a M : Nat) (hM : M &&& WDT_RESET_WIDTH_DURATION = 0) :
    ((a &&& WDT_RESET_WIDTH_DURATION) ||| M) &&& WDT_RESET_WIDTH_DURATION =
      a &&& WDT_RESET_WIDTH_DURATION :=
  or_high_and_mask _ _ _ (and_mask_idem a _) hM

lemma mm_pp (a : Nat) :
    ((a &&& WDT_RESET_WIDTH_DURATION) ||| WDT_PUSH_PULL_MAGIC) &&& WDT_RESET_WIDTH_DURATION =
      a &&& WDT_RESET_WIDTH_DURATION :=
  masked_or_masked a _ (by decide)

lemma mm_od (a : Nat) :
    ((a &&& WDT_RESET_WIDTH_DURATION) ||| WDT_OPEN_DRAIN_MAGIC) &&& WDT_RESET_WIDTH_DURATION =
      a &&& WDT_RESET_WIDTH_DURATION :=
  masked_or_masked a _ (by decide)

lemma mm_ah (a : Nat) :
    ((a &&& WDT_RESET_WIDTH_DURATION) ||| WDT_ACTIVE_HIGH_MAGIC) &&& WDT_RESET_WIDTH_DURATION =
      a &&& WDT_RESET_WIDTH_DURATION :=
  masked_or_masked a _ (by decide)

lemma mm_al (a : Nat) :
    ((a &&& WDT_RESET_WIDTH_DURATION) ||| WDT_ACTIVE_LOW_MAGIC) &&& WDT_RESET_WIDTH_DURATION =
      a &&& WDT_RESET_WIDTH_DURATION :=
  masked_or_masked a _ (by decide)

lemma ult_pp (a : Nat) :
    u32 ((a &&& WDT_RESET_WIDTH_DURATION) ||| WDT_PUSH_PULL_MAGIC) =
      (a &&& WDT_RESET_WIDTH_DURATION) ||| WDT_PUSH_PULL_MAGIC :=
  u32_of_lt (width_or_lt a _ (by decide))

lemma ult_od (a : Nat) :
    u32 ((a &&& WDT_RESET_WIDTH_DURATION) ||| WDT_OPEN_DRAIN_MAGIC) =
      (a &&& WDT_RESET_WIDTH_DURATION) ||| WDT_OPEN_DRAIN_MAGIC :=
  u32_of_lt (width_or_lt a _ (by decide))

lemma ult_ah (a : Nat) :
    u32 ((a &&& WDT_RESET_WIDTH_DURATION) ||| WDT_ACTIVE_HIGH_MAGIC) =
      (a &&& WDT_RESET_WIDTH_DURATION) ||| WDT_ACTIVE_HIGH_MAGIC :=
  u32_of_lt (width_or_lt a _ (by decide))

lemma ult_al (a : Nat) :
    u32 ((a &&& WDT_RESET_WIDTH_DURATION) ||| WDT_ACTIVE_LOW_MAGIC) =
      (a &&& WDT_RESET_WIDTH_DURATION) ||| WDT_ACTIVE_LOW_MAGIC :=
  u32_of_lt (width_or_lt a _ (by decide))

/-- Closed form of `aspeed_wdt_stop`. -/
lemma aspeed_wdt_stop_eq (s : Wdt) :
    aspeed_wdt_stop s =
      (0,
       { regs := { s.regs with ctrl := u32 (s.ctrl &&& 0xFFFFFFFE) }
         ctrl := s.ctrl &&& 0xFFFFFFFE
         timeout := s.timeout
         max_hw_heartbeat_ms := s.max_hw_heartbeat_ms
         hw_running := s.hw_running },
       [Event.write WDT_CTRL (u32 (s.ctrl &&& 0xFFFFFFFE))]) := by
  simp [aspeed_wdt_stop, writel, WDT_STATUS, WDT_RELOAD_VALUE, WDT_RESTART,
    WDT_CTRL, WDT_RESET_WIDTH]

/-- The cached control value after `aspeed_wdt_stop` is a 32-bit value. -/
lemma stop_ctrl_lt (s : Wdt) : s.ctrl &&& 0xFFFFFFFE < U32MOD := by
  rw [U32MOD_eq]
  exact Nat.and_lt_two_pow _ (by norm_num)

/-! ### Claim theorems -/

/-- C3: `aspeed_wdt_start` performs exactly the four-write sequence —
control register with the enable flag cleared (value 0), reload value
`timeout × 1,000,000`, the restart magic, then the cached control bits
with the enable flag ORed in — and afterwards the enable flag (bit 0)
is set in the control register. -/
theorem aspeed_start_sequence_and_enable (s : Wdt) (h : s.timeout ≤ 4294) :
    (aspeed_wdt_start s).1 = 0 ∧
    (aspeed_wdt_start s).2.2 =
      [Event.write WDT_CTRL 0,
       Event.write WDT_RELOAD_VALUE (s.timeout * WDT_RATE_1MHZ),
       Event.write WDT_RESTART WDT_RESTART_MAGIC,
       Event.write WDT_CTRL (u32 (s.ctrl ||| WDT_CTRL_ENABLE))] ∧
    ((aspeed_wdt_start s).2.1.regs.ctrl).testBit 0 = true := by
  have hsmall : u32 (s.timeout * WDT_RATE_1MHZ) = s.timeout * WDT_RATE_1MHZ := by
    apply u32_of_lt
    simp only [WDT_RATE_1MHZ, U32MOD]
    omega
  refine ⟨rfl, ?_, ?_⟩
  · simp only [aspeed_wdt_start, aspeed_wdt_enable_eq, u32_u32, hsmall]
  · simp only [aspeed_wdt_start, aspeed_wdt_enable_eq]
    exact enable_bit_set s.ctrl

/-- Witness for C3 at the concrete state `wit_state`. -/
theorem aspeed_start_sequence_and_enable_witness :
    wit_state.timeout ≤ 4294 ∧
    ((aspeed_wdt_start wit_state).1 = 0 ∧
     (aspeed_wdt_start wit_state).2.2 =
       [Event.write WDT_CTRL 0,
        Event.write WDT_RELOAD_VALUE (wit_state.timeout * WDT_RATE_1MHZ),
        Event.write WDT_RESTART WDT_RESTART_MAGIC,
        Event.write WDT_CTRL (u32 (wit_state.ctrl ||| WDT_CTRL_ENABLE))] ∧
     ((aspeed_wdt_start wit_state).2.1.regs.ctrl).testBit 0 = true) :=
  ⟨by decide, aspeed_start_sequence_and_enable wit_state (by decide)⟩

/-- C8: `aspeed_wdt_restart` ignores both the `action` (reason) and
`data` arguments, returns 0, re-arms through the `aspeed_wdt_enable`
sequence with reload value 128,000 and the enable flag set, and ends
with the fixed 1000 ms blocking delay. -/
theorem aspeed_restart_ignores_reason (s : Wdt) (a b d e : Nat) :
    aspeed_wdt_restart s a d = aspeed_wdt_restart s b e ∧
    (aspeed_wdt_restart s a d).1 = 0 ∧
    (aspeed_wdt_restart s a d).2.2 =
      [Event.write WDT_CTRL 0,
       Event.write WDT_RELOAD_VALUE 128000,
       Event.write WDT_RESTART WDT_RESTART_MAGIC,
       Event.write WDT_CTRL (u32 (s.ctrl ||| WDT_CTRL_ENABLE)),
       Event.delay 1000] ∧
    (aspeed_wdt_restart s a d).2.1.regs.reload_value = 128000 ∧
    ((aspeed_wdt_restart s a d).2.1.regs.ctrl).testBit 0 = true := by
  refine ⟨rfl, rfl, ?_, ?_, ?_⟩
  · simp [aspeed_wdt_restart, aspeed_wdt_enable_eq, WDT_RATE_1MHZ, u32, U32MOD]
  · simp [aspeed_wdt_restart, aspeed_wdt_enable_eq, WDT_RATE_1MHZ, u32, U32MOD]
  · simp only [aspeed_wdt_restart, aspeed_wdt_enable_eq]
    exact enable_bit_set s.ctrl

/-- C9: `aspeed_wdt_stop` clears exactly the enable flag (bit 0) in the
cached control bits — bit 0 of the result is clear and every other bit
is unchanged — writes the result to the control register, and a second
`stop` returns the very same state and write. -/
theorem aspeed_stop_clears_only_enable_idempotent (s : Wdt) (h : s.ctrl < U32MOD) :
    (aspeed_wdt_stop s).2.1.ctrl = s.ctrl &&& 0xFFFFFFFE ∧
    ((aspeed_wdt_stop s).2.1.ctrl).testBit 0 = false ∧
    (∀ i, i ≠ 0 → ((aspeed_wdt_stop s).2.1.ctrl).testBit i = s.ctrl.testBit i) ∧
    (aspeed_wdt_stop s).2.1.regs.ctrl = (aspeed_wdt_stop s).2.1.ctrl ∧
    aspeed_wdt_stop ((aspeed_wdt_stop s).2.1) = aspeed_wdt_stop s := by
  have hmask : ∀ i : Nat, Nat.testBit 0xFFFFFFFE i = (decide (i < 32) && !Nat.testBit 1 i) := by
    intro i
    have e : (0xFFFFFFFE : Nat) = 2 ^ 32 - (1 + 1) := by norm_num
    rw [e, Nat.testBit_two_pow_sub_succ (by norm_num)]
  refine ⟨?_, ?_, ?_, ?_, ?_⟩
  · rw [aspeed_wdt_stop_eq]
  · rw [aspeed_wdt_stop_eq]
    simp [Nat.testBit_and, hmask 0]
  · intro i hi
    rw [aspeed_wdt_stop_eq]
    simp only [Nat.testBit_and, hmask i]
    have h1 : Nat.testBit 1 i = false := by
      rw [show (1 : Nat) = 2 ^ 0 by norm_num, Nat.testBit_two_pow]
      simp
      omega
    by_cases h32 : i < 32
    · simp [h32, h1]
    · have hc : s.ctrl.testBit i = false := by
        apply Nat.testBit_lt_two_pow
        calc s.ctrl < 2 ^ 32 := by rw [← U32MOD_eq]; exact h
        _ ≤ 2 ^ i := Nat.pow_le_pow_right (by norm_num) (by omega)
      simp [h32, hc]
  · rw [aspeed_wdt_stop_eq]
    simp [u32_of_lt (stop_ctrl_lt s)]
  · simp [aspeed_wdt_stop_eq, and_mask_idem, u32_u32]

/-- Witness for C9 at the concrete state `wit_state` with the enable bit
set in the cached control value. -/
theorem aspeed_stop_clears_only_enable_idempotent_witness :
    ((aspeed_wdt_stop { wit_state with ctrl := 19 }).2.1.ctrl =
        (19 : Nat) &&& 0xFFFFFFFE ∧
      ((aspeed_wdt_stop { wit_state with ctrl := 19 }).2.1.ctrl).testBit 0 = false ∧
      (∀ i, i ≠ 0 →
        ((aspeed_wdt_stop { wit_state with ctrl := 19 }).2.1.ctrl).testBit i =
          (19 : Nat).testBit i) ∧
      (aspeed_wdt_stop { wit_state with ctrl := 19 }).2.1.regs.ctrl =
        (aspeed_wdt_stop { wit_state with ctrl := 19 }).2.1.ctrl ∧
      aspeed_wdt_stop ((aspeed_wdt_stop { wit_state with ctrl := 19 }).2.1) =
        aspeed_wdt_stop { wit_state with ctrl := 19 }) :=
  aspeed_stop_clears_only_enable_idempotent { wit_state with ctrl := 19 } (by decide)

/-- C10: `aspeed_wdt_set_timeout` is a pure reconfiguration: the cached
control bits, the control register, the status and reset-width
registers, and the running mark are all unchanged, and the only writes
issued go to the reload register and the restart-trigger register. -/
theorem aspeed_set_timeout_frame (s : Wdt) (t : Nat) :
    (aspeed_wdt_set_timeout s t).2.1.ctrl = s.ctrl ∧
    (aspeed_wdt_set_timeout s t).2.1.regs.ctrl = s.regs.ctrl ∧
    (aspeed_wdt_set_timeout s t).2.1.regs.status = s.regs.status ∧
    (aspeed_wdt_set_timeout s t).2.1.regs.reset_width = s.regs.reset_width ∧
    (aspeed_wdt_set_timeout s t).2.1.hw_running = s.hw_running ∧
    ∃ v, (aspeed_wdt_set_timeout s t).2.2 =
      [Event.write WDT_RELOAD_VALUE v, Event.write WDT_RESTART WDT_RESTART_MAGIC] := by
  refine ⟨?_, ?_, ?_, ?_, ?_, ?_⟩ <;>
    simp [aspeed_wdt_set_timeout, writel, u32, U32MOD, WDT_STATUS,
      WDT_RELOAD_VALUE, WDT_RESTART, WDT_CTRL, WDT_RESET_WIDTH,
      WDT_RESTART_MAGIC]

/-- C2: reset-scope decoding over the probe's base control value (the
1 MHz clock bit): an absent property and `"system"` both set the
system-reset-assertion flag with the scope field left all-zero (soc);
`"cpu"` sets the ARM-CPU scope without the system-reset flag; `"soc"`
adds nothing; and every unrecognized string produces exactly the
`"soc"` result. -/
theorem aspeed_reset_type_decoding :
    decode_reset_ctrl none WDT_CTRL_1MHZ_CLK =
      WDT_CTRL_1MHZ_CLK ||| WDT_CTRL_RESET_SYSTEM ∧
    decode_reset_ctrl none WDT_CTRL_1MHZ_CLK &&&
      (WDT_CTRL_RESET_MODE_FULL_CHIP ||| WDT_CTRL_RESET_MODE_ARM_CPU) = 0 ∧
    decode_reset_ctrl (some "system") WDT_CTRL_1MHZ_CLK =
      WDT_CTRL_1MHZ_CLK ||| WDT_CTRL_RESET_SYSTEM ∧
    decode_reset_ctrl (some "system") WDT_CTRL_1MHZ_CLK &&&
      (WDT_CTRL_RESET_MODE_FULL_CHIP ||| WDT_CTRL_RESET_MODE_ARM_CPU) = 0 ∧
    decode_reset_ctrl (some "cpu") WDT_CTRL_1MHZ_CLK =
      WDT_CTRL_1MHZ_CLK ||| WDT_CTRL_RESET_MODE_ARM_CPU ∧
    decode_reset_ctrl (some "cpu") WDT_CTRL_1MHZ_CLK &&& WDT_CTRL_RESET_SYSTEM = 0 ∧
    decode_reset_ctrl (some "soc") WDT_CTRL_1MHZ_CLK = WDT_CTRL_1MHZ_CLK ∧
    decode_reset_ctrl (some "soc") WDT_CTRL_1MHZ_CLK &&& WDT_CTRL_RESET_SYSTEM = 0 ∧
    (∀ rt : String, rt ≠ "cpu" → rt ≠ "soc" → rt ≠ "system" →
      decode_reset_ctrl (some rt) WDT_CTRL_1MHZ_CLK =
        decode_reset_ctrl (some "soc") WDT_CTRL_1MHZ_CLK) := by
  refine ⟨by decide, by decide, by decide, by decide, by decide, by decide,
    by decide, by decide, ?_⟩
  intro rt h1 h2 h3
  unfold decode_reset_ctrl
  simp [h1, h2, h3, WDT_CTRL_RESET_MODE_SOC, WDT_CTRL_1MHZ_CLK]

/-- Witness for C2: the unrecognized string `"full-chip"` decodes to the
same control bits as `"soc"`. -/
theorem aspeed_reset_type_decoding_witness :
    decode_reset_ctrl (some "full-chip") WDT_CTRL_1MHZ_CLK =
      decode_reset_ctrl (some "soc") WDT_CTRL_1MHZ_CLK :=
  aspeed_reset_type_decoding.2.2.2.2.2.2.2.2 "full-chip" (by decide) (by decide)
    (by decide)

/-- C1 (code bug): at the boundary of the 32-bit counter,
`aspeed_wdt_set_timeout` does not clamp.  A 4294-second request writes
the expected 4,294,000,000 to the reload register, but a 4295-second
request — whose microsecond-scaled value exceeds `2^32` — writes the
wrapped value 32,704, which is neither the clamped maximum
`WDT_MAX_TIMEOUT_MS × 1000` microseconds nor the unwrapped product: the
clamp `min(timeout, max_hw_heartbeat_ms * 1000)` compares seconds
against microseconds and never takes effect. -/
theorem aspeed_set_timeout_wraps_not_clamps :
    writesTo (aspeed_wdt_set_timeout wit_state 4294).2.2 WDT_RELOAD_VALUE =
      [4294 * 1000000] ∧
    writesTo (aspeed_wdt_set_timeout wit_state 4295).2.2 WDT_RELOAD_VALUE =
      [32704] ∧
    (aspeed_wdt_set_timeout wit_state 4295).2.1.regs.reload_value = 32704 ∧
    (32704 : Nat) ≠ WDT_MAX_TIMEOUT_MS * 1000 ∧
    (32704 : Nat) ≠ 4295 * 1000000 := by
  decide

/-- C4: if the live control register has the enable flag set at probe
time, a successful probe leaves the enable flag set, forces the 1 MHz
clock-source bit, and marks the device as hardware-already-running; if
the enable flag is clear, the control register is never written (and
keeps its value) and the mark stays clear. -/
theorem aspeed_probe_adoption (dt : DtNode) (hw : Regs) (s0 : Wdt)
    (tr : List Event)
    (heq : aspeed_wdt_probe dt hw = Except.ok (s0, tr)) :
    (hw.ctrl &&& WDT_CTRL_ENABLE ≠ 0 →
      s0.hw_running = true ∧
      (s0.regs.ctrl).testBit 0 = true ∧
      (s0.regs.ctrl).testBit 4 = true) ∧
    (hw.ctrl &&& WDT_CTRL_ENABLE = 0 →
      s0.hw_running = false ∧
      s0.regs.ctrl = hw.ctrl ∧
      writesTo tr WDT_CTRL = []) := by
  have hread : readl WDT_CTRL hw = hw.ctrl := by
    simp [readl, WDT_STATUS, WDT_RELOAD_VALUE, WDT_RESTART, WDT_CTRL,
      WDT_RESET_WIDTH]
  constructor
  · intro hcond
    unfold aspeed_wdt_probe at heq
    simp only [aspeed_wdt_start, aspeed_wdt_enable_eq, hread, hcond,
      ne_eq, not_true_eq_false, not_false_eq_true, if_true, ite_true] at heq
    repeat' split at heq
    all_goals
      first
        | exact (Except.noConfusion heq)
        | (simp only [Except.ok.injEq, Prod.mk.injEq] at heq
           obtain ⟨hs, -⟩ := heq
           subst hs
           exact ⟨rfl, (adopted_ctrl_bits dt).1, (adopted_ctrl_bits dt).2⟩)
  · intro hcond
    unfold aspeed_wdt_probe at heq
    simp only [aspeed_wdt_start, aspeed_wdt_enable_eq, hread, hcond,
      ne_eq, not_true_eq_false, not_false_eq_true, if_false, ite_false] at heq
    repeat' split at heq
    all_goals
      first
        | exact (Except.noConfusion heq)
        | (simp only [Except.ok.injEq, Prod.mk.injEq] at heq
           obtain ⟨hs, htr⟩ := heq
           subst hs
           subst htr
           refine ⟨rfl, rfl, ?_⟩
           simp [writesTo, writel, WDT_STATUS, WDT_RELOAD_VALUE, WDT_RESTART,
             WDT_CTRL, WDT_RESET_WIDTH])

/-- Witness for C4: probing `dt_plain` against the armed register file
`hw_en` adopts the running watchdog. -/
theorem aspeed_probe_adoption_witness :
    s_adopt.hw_running = true ∧
    (s_adopt.regs.ctrl).testBit 0 = true ∧
    (s_adopt.regs.ctrl).testBit 4 = true :=
  (aspeed_probe_adoption dt_plain hw_en s_adopt tr_adopt rfl).1 (by decide)

/-- C5 counterexample: `aspeed_wdt_set_timeout` accepts 0 and stores it,
so the claimed invariant `1 ≤ current_timeout_seconds` fails after the
call `set_timeout(0)`. -/
theorem aspeed_set_timeout_zero_stores_zero :
    (aspeed_wdt_set_timeout wit_state 0).2.1.timeout = 0 ∧
    ¬ (1 ≤ (aspeed_wdt_set_timeout wit_state 0).2.1.timeout) := by
  decide

/-- C5 amended: `aspeed_wdt_set_timeout` stores its argument unchanged,
so the invariant holds exactly for in-range arguments: for
`1 ≤ t ≤ 4294` the stored timeout is `t`, satisfying `1 ≤ value` and
`value` seconds within the maximum hardware duration
(`value × 1000 ≤ WDT_MAX_TIMEOUT_MS` milliseconds); and every successful
probe stores the in-range default timeout. -/
theorem aspeed_timeout_invariant_amended (s : Wdt) (t : Nat)
    (h1 : 1 ≤ t) (h2 : t ≤ 4294) :
    (aspeed_wdt_set_timeout s t).2.1.timeout = t ∧
    1 ≤ (aspeed_wdt_set_timeout s t).2.1.timeout ∧
    (aspeed_wdt_set_timeout s t).2.1.timeout * 1000 ≤ WDT_MAX_TIMEOUT_MS ∧
    (∀ dt hw s0 tr, aspeed_wdt_probe dt hw = Except.ok (s0, tr) →
      1 ≤ s0.timeout ∧ s0.timeout * 1000 ≤ WDT_MAX_TIMEOUT_MS) := by
  have hst : (aspeed_wdt_set_timeout s t).2.1.timeout = t := by
    simp only [aspeed_wdt_set_timeout, u32, U32MOD]
    omega
  refine ⟨hst, ?_, ?_, ?_⟩
  · rw [hst]; exact h1
  · rw [hst]
    simp only [WDT_MAX_TIMEOUT_MS]
    omega
  · intro dt hw s0 tr heq
    have h30 := probe_ok_timeout dt hw s0 tr heq
    rw [h30.1]
    decide

/-- Witness for C5 amended at `t = 30` and the adoption probe run. -/
theorem aspeed_timeout_invariant_amended_witness :
    (aspeed_wdt_set_timeout wit_state 30).2.1.timeout = 30 ∧
    1 ≤ (aspeed_wdt_set_timeout wit_state 30).2.1.timeout ∧
    (aspeed_wdt_set_timeout wit_state 30).2.1.timeout * 1000 ≤ WDT_MAX_TIMEOUT_MS ∧
    (1 ≤ s_adopt.timeout ∧ s_adopt.timeout * 1000 ≤ WDT_MAX_TIMEOUT_MS) := by
  have h := aspeed_timeout_invariant_amended wit_state 30 (by decide) (by decide)
  exact ⟨h.1, h.2.1, h.2.2.1, h.2.2.2 dt_plain hw_en s_adopt tr_adopt rfl⟩

/-- C6 counterexample: the explicit pulse-duration configuration is not
gated on the ast2500 variant.  On a node that is not
ast2500-compatible, an out-of-range duration still aborts probing with
`-EINVAL`, and an in-range duration is still written to the pulse
register. -/
theorem aspeed_pulse_duration_not_variant_gated :
    dt_dur_bad.compatible_ast2500 = false ∧
    aspeed_wdt_probe dt_dur_bad hw_zero = Except.error EINVAL_ERR ∧
    dt_dur7.compatible_ast2500 = false ∧
    probe_reset_width (aspeed_wdt_probe dt_dur7 hw_zero) = some 7 :=
  ⟨rfl, rfl, rfl, rfl⟩

/-- C6 amended: on every variant, a supplied pulse duration above the
12-bit maximum 4095 makes probing fail with `-EINVAL` (no instance is
created), and an in-range duration is written to the pulse register
without unit scaling. -/
theorem aspeed_pulse_duration_amended (dt : DtNode) (hw : Regs) (d : Nat)
    (hd : dt.ext_pulse_duration = some d) :
    (u32 d > WDT_RESET_WIDTH_DURATION →
      aspeed_wdt_probe dt hw = Except.error EINVAL_ERR) ∧
    (u32 d ≤ WDT_RESET_WIDTH_DURATION →
      probe_reset_width (aspeed_wdt_probe dt hw) = some (u32 d)) := by
  constructor
  · intro hgt
    simp [aspeed_wdt_probe, hd, hgt]
  · intro hle
    have hngt : ¬ (u32 d > WDT_RESET_WIDTH_DURATION) := not_lt.mpr hle
    simp [aspeed_wdt_probe, probe_reset_width, hd, hngt, writel, u32_u32,
      WDT_STATUS, WDT_RELOAD_VALUE, WDT_RESTART, WDT_CTRL, WDT_RESET_WIDTH]

/-- Witness for C6 amended: duration 4096 on a non-ast2500 node is fatal
and duration 7 is written verbatim. -/
theorem aspeed_pulse_duration_amended_witness :
    aspeed_wdt_probe dt_dur_bad hw_zero = Except.error EINVAL_ERR ∧
    probe_reset_width (aspeed_wdt_probe dt_dur7 hw_zero) = some (u32 7) :=
  ⟨(aspeed_pulse_duration_amended dt_dur_bad hw_zero 4096 rfl).1 (by decide),
   (aspeed_pulse_duration_amended dt_dur7 hw_zero 7 rfl).2 (by decide)⟩

/-- C7: on the ast2500 variant (with no explicit duration property), the
two reset-width initialization writes each consist of the pre-existing
12-bit duration field ORed with the selected drive-mode or polarity
magic tag, and the duration field of the reset-width register after both
writes equals the field before them. -/
theorem aspeed_pulse_writes_preserve_duration (dt : DtNode) (hw : Regs)
    (s0 : Wdt) (tr : List Event)
    (h25 : dt.compatible_ast2500 = true)
    (hnd : dt.ext_pulse_duration = none)
    (heq : aspeed_wdt_probe dt hw = Except.ok (s0, tr)) :
    s0.regs.reset_width &&& WDT_RESET_WIDTH_DURATION =
      hw.reset_width &&& WDT_RESET_WIDTH_DURATION ∧
    writesTo tr WDT_RESET_WIDTH =
      [(hw.reset_width &&& WDT_RESET_WIDTH_DURATION) |||
         (if dt.ext_push_pull then WDT_PUSH_PULL_MAGIC else WDT_OPEN_DRAIN_MAGIC),
       (hw.reset_width &&& WDT_RESET_WIDTH_DURATION) |||
         (if dt.ext_active_high then WDT_ACTIVE_HIGH_MAGIC else WDT_ACTIVE_LOW_MAGIC)] := by
  by_cases hen : hw.ctrl &&& WDT_CTRL_ENABLE = 0 <;>
    cases hpp : dt.ext_push_pull <;>
      cases hah : dt.ext_active_high <;>
        (unfold aspeed_wdt_probe at heq
         simp only [aspeed_wdt_start, aspeed_wdt_enable_eq, readl, writel,
           h25, hnd, hen, hpp, hah, WDT_STATUS, WDT_RELOAD_VALUE, WDT_RESTART,
           WDT_CTRL, WDT_RESET_WIDTH, if_true, ite_true, if_false, ite_false,
           ne_eq, not_true_eq_false, not_false_eq_true] at heq
         simp only [Except.ok.injEq, Prod.mk.injEq] at heq
         obtain ⟨hs, htr⟩ := heq
         subst hs
         subst htr
         refine ⟨?_, ?_⟩ <;>
           simp [writesTo, writel, hen, hpp, hah, WDT_STATUS, WDT_RELOAD_VALUE,
             WDT_RESTART, WDT_CTRL, WDT_RESET_WIDTH, mm_pp, mm_od, mm_ah,
             mm_al, ult_pp, ult_od, ult_ah, ult_al])

/-- Witness for C7: probing `dt25` (push-pull, active-low) against a
register file with duration field 0xFAB preserves that field across both
writes. -/
theorem aspeed_pulse_writes_preserve_duration_witness :
    s_pulse.regs.reset_width &&& WDT_RESET_WIDTH_DURATION =
      hw_rw.reset_width &&& WDT_RESET_WIDTH_DURATION ∧
    writesTo tr_pulse WDT_RESET_WIDTH =
      [(hw_rw.reset_width &&& WDT_RESET_WIDTH_DURATION) |||
         (if dt25.ext_push_pull then WDT_PUSH_PULL_MAGIC else WDT_OPEN_DRAIN_MAGIC),
       (hw_rw.reset_width &&& WDT_RESET_WIDTH_DURATION) |||
         (if dt25.ext_active_high then WDT_ACTIVE_HIGH_MAGIC else WDT_ACTIVE_LOW_MAGIC)] :=
  aspeed_pulse_writes_preserve_duration dt25 hw_rw s_pulse tr_pulse rfl rfl rfl

end Aspeed
